import Mathlib

/-!
Verification of the zero-shot classification repository
(`zeroshot_encoder/baseline/gpt2.py` and `zeroshot_classifier/util/util.py`)
against its natural-language specification.

The Python code is shallowly embedded: token id sequences are `List ℕ`,
decoded text is `List Char`, Python `int` arithmetic that may go negative is
carried out in `ℤ`, and code paths that raise (failed `assert`, out-of-range
indexing) return `none`.
-/

/-! ## Embedding of `ZsGPT2Tokenizer.__call__` (`gpt2.py`)

`call_single` tokenizes one sample.  The HuggingFace sub-tokenizer calls
(`self._call_paren(question)` etc.) are kept abstract: the embedding receives
the already-encoded id lists `ids_ques`, `ids_text`, `ids_answ` and the ids of
the special tokens (`enc_spec` of each), which is exactly the data the Python
function manipulates.
-/

/-- Special-token ids and `model_max_length` of a `ZsGPT2Tokenizer`:
`enc_spec` applied to `boq_token`, `bot_token`, `boa_token`, `eos_token`,
`pad_token` and the three type tokens. -/
structure Tok where
  model_max_length : ℕ
  boq : ℕ
  bot : ℕ
  boa : ℕ
  eos : ℕ
  padTok : ℕ
  qType : ℕ
  tType : ℕ
  aType : ℕ

/-- Embedding of `ZsGPT2Tokenizer.max_len_single_sentence`:
`self.model_max_length - 2 * 3` (3 pairs of special start token, eos token).
Computed in `ℤ` because Python subtraction does not clamp at zero. -/
def maxLenSingleSentence (model_max_length : ℕ) : ℤ :=
  (model_max_length : ℤ) - 2 * 3

/-- The cropping step of `call_single` (`gpt2.py` lines 180-201): decides
whether and how the text portion `ids_text` is cropped.  Returns the
(possibly cropped) text ids together with whether `warn` was called; `none`
models a failed `assert ln_t_ > 0`.
`mlid` is `max_label_id_length`, the longest label encoding of the dataset
(used in prediction mode only). -/
def cropText (model_max_length : ℕ) (for_prediction : Bool) (mlid : ℕ)
    (ids_ques ids_text ids_answ : List ℕ) : Option (List ℕ × Bool) :=
  if for_prediction then
    -- ln_cont = (1+ln_q+1) + (1+ln_t+1) + 1
    let ln_cont : ℤ := (1 + (ids_ques.length : ℤ) + 1) + (1 + (ids_text.length : ℤ) + 1) + 1
    -- room = model_max_length - 1 - max_label_id_length
    let room : ℤ := (model_max_length : ℤ) - 1 - (mlid : ℤ)
    if ln_cont > room then
      let ln_t' : ℤ := room - ((1 + (ids_ques.length : ℤ) + 1) + (1 + 1) + 1)
      if 0 < ln_t' then some (ids_text.take ln_t'.toNat, true) else none
    else some (ids_text, false)
  else
    let ln_ids : ℤ := (ids_ques.length : ℤ) + (ids_text.length : ℤ) + (ids_answ.length : ℤ)
    if ln_ids > maxLenSingleSentence model_max_length then
      let ln_t' : ℤ := maxLenSingleSentence model_max_length
        - ((ids_ques.length : ℤ) + (ids_answ.length : ℤ))
      if 0 < ln_t' then some (ids_text.take ln_t'.toNat, true) else none
    else some (ids_text, false)

/-- The four sequences produced by `call_single` for one sample, plus whether
a truncation warning was emitted. -/
structure TokOut where
  input_ids : List ℕ
  attention_mask : List ℕ
  token_type_ids : List ℕ
  position_ids : List ℕ
  warned : Bool
  deriving Repr, DecidableEq

/-- The nested `pad` function of `call_single` (`gpt2.py` lines 222-234):
pad to `max_length` with `int_pad`, truncate if necessary. -/
def padSeq (max_length : ℕ) (int_pad : ℕ) (ints : List ℕ) : List ℕ :=
  if max_length < ints.length then ints.take max_length
  else ints ++ List.replicate (max_length - ints.length) int_pad

/-- Sequence construction of `call_single` after cropping (`gpt2.py` lines
202-237): builds `ids`, `tids`, `msks`, `pids` from the (cropped) text ids,
drops the answer ids (keeping `boa_token`) in prediction mode, and pads every
sequence in training mode. -/
def buildOut (T : Tok) (for_prediction : Bool) (max_length : ℕ)
    (ids_ques ids_text ids_answ : List ℕ) (warned : Bool) : TokOut :=
  let n_ques := 1 + ids_ques.length + 1
  let n_text := 1 + ids_text.length + 1
  let n_answ := 1 + ids_answ.length + 1
  let n_cont := n_ques + n_text + 1
  let ids0 := [T.boq] ++ ids_ques ++ [T.eos] ++ [T.bot] ++ ids_text ++ [T.eos]
    ++ [T.boa] ++ ids_answ ++ [T.eos]
  let tids0 := List.replicate n_ques T.qType ++ List.replicate n_text T.tType
    ++ List.replicate n_answ T.aType
  let ids := if for_prediction then ids0.take (ids0.length - (n_answ - 1)) else ids0
  let tids := if for_prediction then tids0.take (tids0.length - (n_answ - 1)) else tids0
  let msks := List.replicate ids.length 1
  let pids := List.range n_cont
    ++ (List.range (ids.length - n_cont)).map (· + T.model_max_length)
  if for_prediction then ⟨ids, msks, tids, pids, warned⟩
  else ⟨padSeq max_length T.padTok ids, padSeq max_length 0 msks,
    padSeq max_length T.padTok tids, padSeq max_length 0 pids, warned⟩

/-- Embedding of `ZsGPT2Tokenizer.__call__ / call_single` for one sample: crop, build,
pad.  In `__call__`, `max_length` defaults to `self.model_max_length` when the
caller passes none. -/
def call_single (T : Tok) (for_prediction : Bool) (max_length mlid : ℕ)
    (ids_ques ids_text ids_answ : List ℕ) : Option TokOut :=
  (cropText T.model_max_length for_prediction mlid ids_ques ids_text ids_answ).map
    fun tw => buildOut T for_prediction max_length ids_ques tw.1 ids_answ tw.2

example :
    (call_single ⟨16, 90, 91, 92, 50, 51, 70, 71, 72⟩ false 16 0 [1, 2] [3, 4] [5]).map
      TokOut.input_ids
    = some [90, 1, 2, 50, 91, 3, 4, 50, 92, 5, 50, 51, 51, 51, 51, 51] := by decide

example :
    (call_single ⟨16, 90, 91, 92, 50, 51, 70, 71, 72⟩ true 16 2 [1, 2] [3, 4] []).map
      TokOut.input_ids
    = some [90, 1, 2, 50, 91, 3, 4, 50, 92] := by decide

/-- Case analysis of the training-mode cropping step: either the sample fits
in `max_len_single_sentence` and the text is untouched (no warning), or the
text is cropped to `max_len_single_sentence - (ln_q + ln_a)` ids with a
warning. -/
theorem cropText_train_spec {mml mlid : ℕ} {q t a t' : List ℕ} {w : Bool}
    (h : cropText mml false mlid q t a = some (t', w)) :
    (w = false ∧ t' = t
      ∧ ((q.length : ℤ) + t.length + a.length ≤ maxLenSingleSentence mml))
    ∨ (w = true ∧ ∃ k : ℕ, t' = t.take k
      ∧ (k : ℤ) = maxLenSingleSentence mml - ((q.length : ℤ) + a.length)
      ∧ 0 < k
      ∧ maxLenSingleSentence mml < (q.length : ℤ) + t.length + a.length) := by
  unfold cropText at h
  simp only [Bool.false_eq_true, if_false, gt_iff_lt] at h
  by_cases h1 : maxLenSingleSentence mml
      < (q.length : ℤ) + (t.length : ℤ) + (a.length : ℤ)
  · rw [if_pos h1] at h
    by_cases h2 : (0 : ℤ) < maxLenSingleSentence mml
        - ((q.length : ℤ) + (a.length : ℤ))
    · rw [if_pos h2] at h
      cases h
      exact Or.inr ⟨rfl, (maxLenSingleSentence mml
        - ((q.length : ℤ) + a.length)).toNat, rfl, by omega, by omega, h1⟩
    · rw [if_neg h2] at h
      cases h
  · rw [if_neg h1] at h
    cases h
    exact Or.inl ⟨rfl, rfl, by omega⟩

/-- Case analysis of the prediction-mode cropping step: either the context
plus the longest label id plus an EOS fits in `model_max_length` and the text
is untouched, or the text is cropped to `room - (ln_q + 5)` ids with a
warning. -/
theorem cropText_pred_spec {mml mlid : ℕ} {q t a t' : List ℕ} {w : Bool}
    (h : cropText mml true mlid q t a = some (t', w)) :
    (w = false ∧ t' = t
      ∧ ((1 : ℤ) + q.length + 1) + (1 + (t.length : ℤ) + 1) + 1
          ≤ (mml : ℤ) - 1 - mlid)
    ∨ (w = true ∧ ∃ k : ℕ, t' = t.take k
      ∧ (k : ℤ) = ((mml : ℤ) - 1 - mlid) - ((1 + (q.length : ℤ) + 1) + (1 + 1) + 1)
      ∧ 0 < k
      ∧ (mml : ℤ) - 1 - mlid
          < ((1 : ℤ) + q.length + 1) + (1 + (t.length : ℤ) + 1) + 1) := by
  unfold cropText at h
  simp only [if_true, gt_iff_lt] at h
  by_cases h1 : (mml : ℤ) - 1 - (mlid : ℤ)
      < 1 + (q.length : ℤ) + 1 + (1 + (t.length : ℤ) + 1) + 1
  · rw [if_pos h1] at h
    by_cases h2 : (0 : ℤ) < (mml : ℤ) - 1 - (mlid : ℤ)
        - (1 + (q.length : ℤ) + 1 + (1 + 1) + 1)
    · rw [if_pos h2] at h
      cases h
      exact Or.inr ⟨rfl, ((mml : ℤ) - 1 - (mlid : ℤ)
        - (1 + (q.length : ℤ) + 1 + (1 + 1) + 1)).toNat, rfl,
        by omega, by omega, by omega⟩
    · rw [if_neg h2] at h
      cases h
  · rw [if_neg h1] at h
    cases h
    exact Or.inl ⟨rfl, rfl, by omega⟩

/-- Inversion for `call_single`: a successful call is `buildOut` applied to
the result of the cropping step. -/
theorem call_single_inv {T : Tok} {fp : Bool} {ml mlid : ℕ} {q t a : List ℕ}
    {o : TokOut} (h : call_single T fp ml mlid q t a = some o) :
    ∃ t' w, cropText T.model_max_length fp mlid q t a = some (t', w)
      ∧ o = buildOut T fp ml q t' a w := by
  unfold call_single at h
  cases hc : cropText T.model_max_length fp mlid q t a with
  | none => rw [hc] at h; cases h
  | some tw =>
    obtain ⟨t', w⟩ := tw
    rw [hc] at h
    exact ⟨t', w, rfl, (Option.some.inj h).symm⟩

theorem buildOut_warned (T : Tok) (fp : Bool) (ml : ℕ) (q t' a : List ℕ) (w : Bool) :
    (buildOut T fp ml q t' a w).warned = w := by
  cases fp <;> simp [buildOut]

theorem buildOut_train_input_ids (T : Tok) (ml : ℕ) (q t' a : List ℕ) (w : Bool) :
    (buildOut T false ml q t' a w).input_ids
      = padSeq ml T.padTok ([T.boq] ++ q ++ [T.eos] ++ [T.bot] ++ t' ++ [T.eos]
        ++ [T.boa] ++ a ++ [T.eos]) := by
  simp [buildOut]

theorem buildOut_train_attention_mask (T : Tok) (ml : ℕ) (q t' a : List ℕ) (w : Bool) :
    (buildOut T false ml q t' a w).attention_mask
      = padSeq ml 0 (List.replicate (q.length + t'.length + a.length + 6) 1) := by
  simp only [buildOut, Bool.false_eq_true, if_false]
  rw [show ([T.boq] ++ q ++ [T.eos] ++ [T.bot] ++ t' ++ [T.eos]
      ++ [T.boa] ++ a ++ [T.eos]).length = q.length + t'.length + a.length + 6 by
    simp only [List.length_append, List.length_cons, List.length_nil]
    omega]

theorem buildOut_train_token_type_ids (T : Tok) (ml : ℕ) (q t' a : List ℕ) (w : Bool) :
    (buildOut T false ml q t' a w).token_type_ids
      = padSeq ml T.padTok (List.replicate (1 + q.length + 1) T.qType
        ++ List.replicate (1 + t'.length + 1) T.tType
        ++ List.replicate (1 + a.length + 1) T.aType) := by
  simp [buildOut]

theorem buildOut_train_position_ids (T : Tok) (ml : ℕ) (q t' a : List ℕ) (w : Bool) :
    (buildOut T false ml q t' a w).position_ids
      = padSeq ml 0 (List.range ((1 + q.length + 1) + (1 + t'.length + 1) + 1)
        ++ (List.range (a.length + 1)).map (· + T.model_max_length)) := by
  simp only [buildOut, Bool.false_eq_true, if_false]
  rw [show ([T.boq] ++ q ++ [T.eos] ++ [T.bot] ++ t' ++ [T.eos]
      ++ [T.boa] ++ a ++ [T.eos]).length
        - (1 + q.length + 1 + (1 + t'.length + 1) + 1) = a.length + 1 by
    simp only [List.length_append, List.length_cons, List.length_nil]
    omega]

theorem buildOut_pred_input_ids (T : Tok) (ml : ℕ) (q t' a : List ℕ) (w : Bool) :
    (buildOut T true ml q t' a w).input_ids
      = [T.boq] ++ q ++ [T.eos] ++ [T.bot] ++ t' ++ [T.eos] ++ [T.boa] := by
  simp only [buildOut, if_true]
  rw [show [T.boq] ++ q ++ [T.eos] ++ [T.bot] ++ t' ++ [T.eos] ++ [T.boa] ++ a ++ [T.eos]
      = ([T.boq] ++ q ++ [T.eos] ++ [T.bot] ++ t' ++ [T.eos] ++ [T.boa]) ++ (a ++ [T.eos])
    by simp]
  rw [List.take_left']
  simp [List.length_append]
  omega

theorem buildOut_pred_token_type_ids (T : Tok) (ml : ℕ) (q t' a : List ℕ) (w : Bool) :
    (buildOut T true ml q t' a w).token_type_ids
      = List.replicate (1 + q.length + 1) T.qType
        ++ List.replicate (1 + t'.length + 1) T.tType ++ [T.aType] := by
  simp only [buildOut, if_true]
  rw [show (List.replicate (1 + q.length + 1) T.qType
        ++ List.replicate (1 + t'.length + 1) T.tType
        ++ List.replicate (1 + a.length + 1) T.aType).length - (1 + a.length + 1 - 1)
      = (List.replicate (1 + q.length + 1) T.qType
        ++ List.replicate (1 + t'.length + 1) T.tType).length + 1 by
    simp [List.length_append]
    omega]
  rw [List.take_append]
  rw [show (1 : ℕ) + a.length + 1 = 1 + (a.length + 1) by omega, List.replicate_succ]
  simp

theorem buildOut_pred_attention_mask (T : Tok) (ml : ℕ) (q t' a : List ℕ) (w : Bool) :
    (buildOut T true ml q t' a w).attention_mask
      = List.replicate (q.length + t'.length + 5) 1 := by
  have h := buildOut_pred_input_ids T ml q t' a w
  simp only [buildOut, if_true] at h ⊢
  rw [h]
  congr 1
  simp [List.length_append]
  omega

theorem buildOut_pred_position_ids (T : Tok) (ml : ℕ) (q t' a : List ℕ) (w : Bool) :
    (buildOut T true ml q t' a w).position_ids
      = List.range (q.length + t'.length + 5) := by
  have h := buildOut_pred_input_ids T ml q t' a w
  simp only [buildOut, if_true] at h ⊢
  rw [h]
  rw [show ([T.boq] ++ q ++ [T.eos] ++ [T.bot] ++ t' ++ [T.eos] ++ [T.boa]).length
      - ((1 + q.length + 1) + (1 + t'.length + 1) + 1) = 0 by
    simp [List.length_append]
    omega]
  simp only [List.range_zero, List.map_nil, List.append_nil]
  congr 1
  omega

/-- The text ids surviving the training-mode crop are a `take` of the
original text ids. -/
theorem cropText_train_take {mml mlid : ℕ} {q t a t' : List ℕ} {w : Bool}
    (h : cropText mml false mlid q t a = some (t', w)) :
    ∃ k, t' = t.take k := by
  rcases cropText_train_spec h with ⟨-, ht, -⟩ | ⟨-, k, ht, -, -, -⟩
  · exact ⟨t.length, by rw [ht, List.take_length]⟩
  · exact ⟨k, ht⟩

/-- Whatever the training-mode crop decides, the finished sequence
(`ln_q + ln_t' + ln_a` plus 6 specials) fits in `model_max_length`, and the
answer and its 6 specials alone fit as well. -/
theorem cropText_train_len_le {mml mlid : ℕ} {q t a t' : List ℕ} {w : Bool}
    (h : cropText mml false mlid q t a = some (t', w)) :
    q.length + t'.length + a.length + 6 ≤ mml ∧ a.length + 6 ≤ mml := by
  rcases cropText_train_spec h with ⟨-, rfl, hle⟩ | ⟨-, k, rfl, hk, hpos, -⟩
  · unfold maxLenSingleSentence at hle
    omega
  · unfold maxLenSingleSentence at hk
    have := List.length_take k t
    omega

theorem cropText_pred_take {mml mlid : ℕ} {q t a t' : List ℕ} {w : Bool}
    (h : cropText mml true mlid q t a = some (t', w)) :
    ∃ k, t' = t.take k := by
  rcases cropText_pred_spec h with ⟨-, ht, -⟩ | ⟨-, k, ht, -, -, -⟩
  · exact ⟨t.length, by rw [ht, List.take_length]⟩
  · exact ⟨k, ht⟩

/-- Whatever the prediction-mode crop decides, the context (`ln_q + ln_t'`
plus 5 specials) plus the longest label encoding plus a final EOS fits in
`model_max_length`. -/
theorem cropText_pred_len_le {mml mlid : ℕ} {q t a t' : List ℕ} {w : Bool}
    (h : cropText mml true mlid q t a = some (t', w)) :
    q.length + t'.length + 5 + mlid + 1 ≤ mml := by
  rcases cropText_pred_spec h with ⟨-, rfl, hle⟩ | ⟨-, k, rfl, hk, hpos, -⟩
  · omega
  · have := List.length_take k t
    omega

theorem padSeq_length (ml p : ℕ) (l : List ℕ) : (padSeq ml p l).length = ml := by
  unfold padSeq
  split_ifs with h
  · simp only [List.length_take]
    omega
  · simp only [List.length_append, List.length_replicate]
    omega

/-- When the sequence fits, `pad` appends exactly `n` copies of the pad
value, where `l.length + n = max_length`. -/
theorem padSeq_append_eq {ml p : ℕ} {l : List ℕ} (n : ℕ) (h : l.length + n = ml) :
    padSeq ml p l = l ++ List.replicate n p := by
  unfold padSeq
  rw [if_neg (by omega)]
  congr 2
  omega

/-- A concrete tokenizer instance used by the witnesses:
`model_max_length = 16`, special-token ids 90, 91, 92, eos 50, pad 51,
type ids 70, 71, 72. -/
def T0 : Tok := ⟨16, 90, 91, 92, 50, 51, 70, 71, 72⟩

/-- Value of `call_single T0 false 16 2 [1,2] [3,4] [5]`, computed. -/
def oTr0 : TokOut :=
  ⟨[90, 1, 2, 50, 91, 3, 4, 50, 92, 5, 50, 51, 51, 51, 51, 51],
   [1, 1, 1, 1, 1, 1, 1, 1, 1, 1, 1, 0, 0, 0, 0, 0],
   [70, 70, 70, 70, 71, 71, 71, 71, 72, 72, 72, 51, 51, 51, 51, 51],
   [0, 1, 2, 3, 4, 5, 6, 7, 8, 16, 17, 0, 0, 0, 0, 0],
   false⟩

/-- Value of `call_single T0 true 16 2 [1,2] [3,4] [5]`, computed. -/
def oPr0 : TokOut :=
  ⟨[90, 1, 2, 50, 91, 3, 4, 50, 92],
   [1, 1, 1, 1, 1, 1, 1, 1, 1],
   [70, 70, 70, 70, 71, 71, 71, 71, 72],
   [0, 1, 2, 3, 4, 5, 6, 7, 8],
   false⟩

/-- C1: when a sample exceeds the length limit only the text portion's token
ids are truncated: in training mode (limit `max_len_single_sentence`, default
`max_length = model_max_length`) the output `input_ids` contain the question
ids and the answer ids complete and unmodified around a `take` of the text
ids; in prediction mode the context keeps the full question ids and is
cropped so that the context plus the dataset's longest label encoding
(`mlid`) plus an EOS fits within `model_max_length`. -/
theorem c1_label_never_cropped (T : Tok) (mlid : ℕ) (q t a : List ℕ)
    (oTr oPr : TokOut) :
    (call_single T false T.model_max_length mlid q t a = some oTr →
      ∃ k, oTr.input_ids
        = [T.boq] ++ q ++ [T.eos] ++ [T.bot] ++ t.take k ++ [T.eos]
          ++ [T.boa] ++ a ++ [T.eos]
          ++ List.replicate
            (T.model_max_length - (q.length + (t.take k).length + a.length + 6))
            T.padTok)
    ∧ (call_single T true T.model_max_length mlid q t a = some oPr →
      ∃ k, oPr.input_ids
          = [T.boq] ++ q ++ [T.eos] ++ [T.bot] ++ t.take k ++ [T.eos] ++ [T.boa]
        ∧ oPr.input_ids.length + mlid + 1 ≤ T.model_max_length) := by
  constructor
  · intro h
    obtain ⟨t', w, hc, rfl⟩ := call_single_inv h
    have hlen := (cropText_train_len_le hc).1
    obtain ⟨k, rfl⟩ := cropText_train_take hc
    refine ⟨k, ?_⟩
    rw [buildOut_train_input_ids, padSeq_append_eq
      (T.model_max_length - (q.length + (t.take k).length + a.length + 6))
      (by simp only [List.length_append, List.length_cons, List.length_nil]; omega)]
  · intro h
    obtain ⟨t', w, hc, rfl⟩ := call_single_inv h
    have hlen := cropText_pred_len_le hc
    obtain ⟨k, rfl⟩ := cropText_pred_take hc
    refine ⟨k, buildOut_pred_input_ids T T.model_max_length q (t.take k) a w, ?_⟩
    rw [buildOut_pred_input_ids]
    simp only [List.length_append, List.length_cons, List.length_nil]
    omega

theorem c1_witness :
    (∃ k, oTr0.input_ids
      = [T0.boq] ++ [1, 2] ++ [T0.eos] ++ [T0.bot] ++ [3, 4].take k ++ [T0.eos]
        ++ [T0.boa] ++ [5] ++ [T0.eos]
        ++ List.replicate
          (T0.model_max_length
            - (([1, 2] : List ℕ).length + ([3, 4].take k).length
              + ([5] : List ℕ).length + 6))
          T0.padTok)
    ∧ (∃ k, oPr0.input_ids
        = [T0.boq] ++ [1, 2] ++ [T0.eos] ++ [T0.bot] ++ [3, 4].take k ++ [T0.eos] ++ [T0.boa]
      ∧ oPr0.input_ids.length + 2 + 1 ≤ T0.model_max_length) :=
  ⟨(c1_label_never_cropped T0 2 [1, 2] [3, 4] [5] oTr0 oPr0).1 (by decide),
   (c1_label_never_cropped T0 2 [1, 2] [3, 4] [5] oTr0 oPr0).2 (by decide)⟩

/-- C2: `input_ids` is the concatenation
`[boq] + question + [eos] + [bot] + text + [eos] + [boa] + answer + [eos]`
(the answer segment reduced to the `boa_token` in prediction mode), and
`position_ids` assigns `0 .. n_cont-1` to the context (up to and including
`boa_token`) followed by ids offset by `model_max_length` for the answer
part, every one of which lies in `[model_max_length, 2*model_max_length)`. -/
theorem c2_structure_and_position_ids (T : Tok) (mlid : ℕ) (q t a : List ℕ)
    (oTr oPr : TokOut) :
    (call_single T false T.model_max_length mlid q t a = some oTr →
      ∃ k, oTr.input_ids
          = [T.boq] ++ q ++ [T.eos] ++ [T.bot] ++ t.take k ++ [T.eos]
            ++ [T.boa] ++ a ++ [T.eos]
            ++ List.replicate
              (T.model_max_length - (q.length + (t.take k).length + a.length + 6))
              T.padTok
        ∧ oTr.position_ids
          = List.range ((1 + q.length + 1) + (1 + (t.take k).length + 1) + 1)
            ++ (List.range (a.length + 1)).map (· + T.model_max_length)
            ++ List.replicate
              (T.model_max_length - (q.length + (t.take k).length + a.length + 6)) 0
        ∧ ∀ p ∈ (List.range (a.length + 1)).map (· + T.model_max_length),
            T.model_max_length ≤ p ∧ p < 2 * T.model_max_length)
    ∧ (call_single T true T.model_max_length mlid q t a = some oPr →
      ∃ k, oPr.input_ids
          = [T.boq] ++ q ++ [T.eos] ++ [T.bot] ++ t.take k ++ [T.eos] ++ [T.boa]
        ∧ oPr.position_ids = List.range oPr.input_ids.length) := by
  constructor
  · intro h
    obtain ⟨t', w, hc, rfl⟩ := call_single_inv h
    have hlen := cropText_train_len_le hc
    obtain ⟨k, rfl⟩ := cropText_train_take hc
    refine ⟨k, ?_, ?_, ?_⟩
    · rw [buildOut_train_input_ids, padSeq_append_eq
        (T.model_max_length - (q.length + (t.take k).length + a.length + 6))
        (by simp only [List.length_append, List.length_cons, List.length_nil]; omega)]
    · rw [buildOut_train_position_ids, padSeq_append_eq
        (T.model_max_length - (q.length + (t.take k).length + a.length + 6))
        (by simp only [List.length_append, List.length_range, List.length_map]; omega)]
    · intro p hp
      simp only [List.mem_map, List.mem_range] at hp
      obtain ⟨x, hx, rfl⟩ := hp
      exact ⟨by omega, by omega⟩
  · intro h
    obtain ⟨t', w, hc, rfl⟩ := call_single_inv h
    obtain ⟨k, rfl⟩ := cropText_pred_take hc
    refine ⟨k, buildOut_pred_input_ids T T.model_max_length q (t.take k) a w, ?_⟩
    rw [buildOut_pred_position_ids, buildOut_pred_input_ids]
    rw [show ([T.boq] ++ q ++ [T.eos] ++ [T.bot] ++ t.take k ++ [T.eos]
        ++ [T.boa]).length = q.length + (t.take k).length + 5 by
      simp only [List.length_append, List.length_cons, List.length_nil]
      omega]

theorem c2_witness :
    (∃ k, oTr0.input_ids
        = [T0.boq] ++ [1, 2] ++ [T0.eos] ++ [T0.bot] ++ [3, 4].take k ++ [T0.eos]
          ++ [T0.boa] ++ [5] ++ [T0.eos]
          ++ List.replicate
            (T0.model_max_length
              - (([1, 2] : List ℕ).length + ([3, 4].take k).length
                + ([5] : List ℕ).length + 6))
            T0.padTok
      ∧ oTr0.position_ids
        = List.range ((1 + ([1, 2] : List ℕ).length + 1)
            + (1 + ([3, 4].take k).length + 1) + 1)
          ++ (List.range (([5] : List ℕ).length + 1)).map (· + T0.model_max_length)
          ++ List.replicate
            (T0.model_max_length
              - (([1, 2] : List ℕ).length + ([3, 4].take k).length
                + ([5] : List ℕ).length + 6)) 0
      ∧ ∀ p ∈ (List.range (([5] : List ℕ).length + 1)).map (· + T0.model_max_length),
          T0.model_max_length ≤ p ∧ p < 2 * T0.model_max_length)
    ∧ (∃ k, oPr0.input_ids
        = [T0.boq] ++ [1, 2] ++ [T0.eos] ++ [T0.bot] ++ [3, 4].take k ++ [T0.eos] ++ [T0.boa]
      ∧ oPr0.position_ids = List.range oPr0.input_ids.length) :=
  ⟨(c2_structure_and_position_ids T0 2 [1, 2] [3, 4] [5] oTr0 oPr0).1 (by decide),
   (c2_structure_and_position_ids T0 2 [1, 2] [3, 4] [5] oTr0 oPr0).2 (by decide)⟩

/-- C8: the four sequences returned for a sample have equal length: in
training mode each has length exactly `max_length` (so with the default
`max_length = model_max_length`, exactly `model_max_length`), with
`input_ids`/`token_type_ids` padded with the pad token id and
`attention_mask`/`position_ids` padded with `0`; in prediction mode nothing
is padded. -/
theorem c8_equal_lengths_and_padding (T : Tok) (mlid ml : ℕ) (q t a : List ℕ)
    (oTr oTr' oPr : TokOut) :
    (call_single T false ml mlid q t a = some oTr →
      oTr.input_ids.length = ml ∧ oTr.attention_mask.length = ml
        ∧ oTr.token_type_ids.length = ml ∧ oTr.position_ids.length = ml)
    ∧ (call_single T false T.model_max_length mlid q t a = some oTr' →
      ∃ k, oTr'.input_ids
          = ([T.boq] ++ q ++ [T.eos] ++ [T.bot] ++ t.take k ++ [T.eos]
            ++ [T.boa] ++ a ++ [T.eos])
            ++ List.replicate
              (T.model_max_length - (q.length + (t.take k).length + a.length + 6))
              T.padTok
        ∧ oTr'.token_type_ids
          = (List.replicate (1 + q.length + 1) T.qType
            ++ List.replicate (1 + (t.take k).length + 1) T.tType
            ++ List.replicate (1 + a.length + 1) T.aType)
            ++ List.replicate
              (T.model_max_length - (q.length + (t.take k).length + a.length + 6))
              T.padTok
        ∧ oTr'.attention_mask
          = List.replicate (q.length + (t.take k).length + a.length + 6) 1
            ++ List.replicate
              (T.model_max_length - (q.length + (t.take k).length + a.length + 6)) 0
        ∧ oTr'.position_ids
          = (List.range ((1 + q.length + 1) + (1 + (t.take k).length + 1) + 1)
            ++ (List.range (a.length + 1)).map (· + T.model_max_length))
            ++ List.replicate
              (T.model_max_length - (q.length + (t.take k).length + a.length + 6)) 0)
    ∧ (call_single T true ml mlid q t a = some oPr →
      oPr.attention_mask.length = oPr.input_ids.length
        ∧ oPr.token_type_ids.length = oPr.input_ids.length
        ∧ oPr.position_ids.length = oPr.input_ids.length
        ∧ oPr.attention_mask = List.replicate oPr.input_ids.length 1
        ∧ oPr.position_ids = List.range oPr.input_ids.length) := by
  refine ⟨?_, ?_, ?_⟩
  · intro h
    obtain ⟨t', w, hc, rfl⟩ := call_single_inv h
    rw [buildOut_train_input_ids, buildOut_train_attention_mask,
      buildOut_train_token_type_ids, buildOut_train_position_ids]
    exact ⟨padSeq_length .., padSeq_length .., padSeq_length .., padSeq_length ..⟩
  · intro h
    obtain ⟨t', w, hc, rfl⟩ := call_single_inv h
    have hlen := cropText_train_len_le hc
    obtain ⟨k, rfl⟩ := cropText_train_take hc
    refine ⟨k, ?_, ?_, ?_, ?_⟩
    · rw [buildOut_train_input_ids, padSeq_append_eq
        (T.model_max_length - (q.length + (t.take k).length + a.length + 6))
        (by simp only [List.length_append, List.length_cons, List.length_nil]; omega)]
    · rw [buildOut_train_token_type_ids, padSeq_append_eq
        (T.model_max_length - (q.length + (t.take k).length + a.length + 6))
        (by simp only [List.length_append, List.length_replicate]; omega)]
    · rw [buildOut_train_attention_mask, padSeq_append_eq
        (T.model_max_length - (q.length + (t.take k).length + a.length + 6))
        (by simp only [List.length_replicate]; omega)]
    · rw [buildOut_train_position_ids, padSeq_append_eq
        (T.model_max_length - (q.length + (t.take k).length + a.length + 6))
        (by simp only [List.length_append, List.length_range, List.length_map]; omega)]
  · intro h
    obtain ⟨t', w, hc, rfl⟩ := call_single_inv h
    rw [buildOut_pred_input_ids, buildOut_pred_attention_mask,
      buildOut_pred_token_type_ids, buildOut_pred_position_ids]
    rw [show ([T.boq] ++ q ++ [T.eos] ++ [T.bot] ++ t' ++ [T.eos]
        ++ [T.boa]).length = q.length + t'.length + 5 by
      simp only [List.length_append, List.length_cons, List.length_nil]
      omega]
    refine ⟨by simp, ?_, by simp, rfl, rfl⟩
    simp only [List.length_append, List.length_replicate, List.length_cons,
      List.length_nil]
    omega

theorem c8_witness :
    (oTr0.input_ids.length = 16 ∧ oTr0.attention_mask.length = 16
      ∧ oTr0.token_type_ids.length = 16 ∧ oTr0.position_ids.length = 16)
    ∧ (∃ k, oTr0.input_ids
        = ([T0.boq] ++ [1, 2] ++ [T0.eos] ++ [T0.bot] ++ [3, 4].take k ++ [T0.eos]
          ++ [T0.boa] ++ [5] ++ [T0.eos])
          ++ List.replicate
            (T0.model_max_length
              - (([1, 2] : List ℕ).length + ([3, 4].take k).length
                + ([5] : List ℕ).length + 6))
            T0.padTok
      ∧ oTr0.token_type_ids
        = (List.replicate (1 + ([1, 2] : List ℕ).length + 1) T0.qType
          ++ List.replicate (1 + ([3, 4].take k).length + 1) T0.tType
          ++ List.replicate (1 + ([5] : List ℕ).length + 1) T0.aType)
          ++ List.replicate
            (T0.model_max_length
              - (([1, 2] : List ℕ).length + ([3, 4].take k).length
                + ([5] : List ℕ).length + 6))
            T0.padTok
      ∧ oTr0.attention_mask
        = List.replicate (([1, 2] : List ℕ).length + ([3, 4].take k).length
            + ([5] : List ℕ).length + 6) 1
          ++ List.replicate
            (T0.model_max_length
              - (([1, 2] : List ℕ).length + ([3, 4].take k).length
                + ([5] : List ℕ).length + 6)) 0
      ∧ oTr0.position_ids
        = (List.range ((1 + ([1, 2] : List ℕ).length + 1)
            + (1 + ([3, 4].take k).length + 1) + 1)
          ++ (List.range (([5] : List ℕ).length + 1)).map (· + T0.model_max_length))
          ++ List.replicate
            (T0.model_max_length
              - (([1, 2] : List ℕ).length + ([3, 4].take k).length
                + ([5] : List ℕ).length + 6)) 0)
    ∧ (oPr0.attention_mask.length = oPr0.input_ids.length
      ∧ oPr0.token_type_ids.length = oPr0.input_ids.length
      ∧ oPr0.position_ids.length = oPr0.input_ids.length
      ∧ oPr0.attention_mask = List.replicate oPr0.input_ids.length 1
      ∧ oPr0.position_ids = List.range oPr0.input_ids.length) :=
  ⟨(c8_equal_lengths_and_padding T0 2 16 [1, 2] [3, 4] [5] oTr0 oTr0 oPr0).1 (by decide),
   (c8_equal_lengths_and_padding T0 2 16 [1, 2] [3, 4] [5] oTr0 oTr0 oPr0).2.1 (by decide),
   (c8_equal_lengths_and_padding T0 2 16 [1, 2] [3, 4] [5] oTr0 oTr0 oPr0).2.2 (by decide)⟩

/-! ## Embedding of `evaluate_trained / set_pred_n_true` (`gpt2.py`)

Decoded text is `List Char`; `str.lower()` is `Char.toLower` mapped over the
characters. -/

/-- Modelled from the spec: `get_substr_indices` (imported from the util
package, which is not under `src/`) returns the start indices, in increasing
order, of all occurrences of `s_sub` in `s`. -/
def get_substr_indices (s s_sub : List Char) : List ℕ :=
  (List.range s.length).filter fun i => (s.drop i).take s_sub.length == s_sub

/-- Python `str.lower()`. -/
def lowerStr (s : List Char) : List Char :=
  s.map Char.toLower

/-- The `lb2id` lookup of `evaluate_trained` (`gpt2.py` lines 621-624): a
`defaultdict(lambda: -1)` updated with `lb.lower() -> i` for `i, lb` in
`enumerate(labels)`; a key mapped twice keeps the last index. -/
def lb2id (labels : List (List Char)) (answer : List Char) : ℤ :=
  match (((labels.enum).filter fun p => lowerStr p.2 == answer).map Prod.fst).getLast? with
  | some i => (i : ℤ)
  | none => -1

/-- Embedding of `set_pred_n_true` (`gpt2.py` lines 702-748), restricted to computing
`id_pred` and whether a malformed-generation warning fired.  `none` models
the `IndexError` on `idxs_boa[0]` when no `boa_token` occurs (the code
comments that the prompt guarantees at least one). -/
def set_pred_n_true (boa eos : List Char) (labels : List (List Char))
    (generated : List Char) : Option (ℤ × Bool) :=
  let idxs_boa := get_substr_indices generated boa
  match idxs_boa with
  | [] => none
  | i0 :: rest =>
    let answer_with_eos := generated.drop (i0 + boa.length)
    if 1 < (i0 :: rest).length then some (-1, true)
    else
      match get_substr_indices answer_with_eos eos with
      | [] => some (-1, true)
      | j :: _ => some (lb2id labels (lowerStr (answer_with_eos.take j)), false)

example :  -- a clean parse: answer text matches label 0
    set_pred_n_true ['@'] ['#'] [['a'], ['b']] ['@', 'a', '#'] = some (0, false) := by
  decide

/-- The lookup `lb2id` returns the sentinel `-1` exactly when no label description
matches the (lowered) answer, and otherwise the index of a matching label. -/
theorem lb2id_spec (labels : List (List Char)) (answer : List Char) :
    (lb2id labels answer = -1 ↔ ∀ lb ∈ labels, lowerStr lb ≠ answer)
    ∧ (lb2id labels answer ≠ -1 →
        ∃ (n : ℕ) (lb : List Char), lb2id labels answer = (n : ℤ)
          ∧ labels[n]? = some lb ∧ lowerStr lb = answer) := by
  cases hF : (((labels.enum).filter fun p => lowerStr p.2 == answer).map Prod.fst).getLast? with
  | none =>
    have hval : lb2id labels answer = -1 := by
      unfold lb2id
      rw [hF]
    have hmatch : ∀ lb ∈ labels, lowerStr lb ≠ answer := by
      rw [List.getLast?_eq_none_iff, List.map_eq_nil_iff, List.filter_eq_nil_iff] at hF
      intro lb hlb h'
      obtain ⟨i, hi⟩ := List.mem_iff_getElem?.mp hlb
      exact hF (i, lb) (List.mk_mem_enum_iff_getElem?.mpr hi) (by simpa using h')
    exact ⟨⟨fun _ => hmatch, fun _ => hval⟩, fun hne => absurd hval hne⟩
  | some i =>
    have hval : lb2id labels answer = (i : ℤ) := by
      unfold lb2id
      rw [hF]
    have hiF : i ∈ ((labels.enum).filter fun p => lowerStr p.2 == answer).map Prod.fst := by
      obtain ⟨ys, hys⟩ := List.getLast?_eq_some_iff.mp hF
      rw [hys]
      simp
    obtain ⟨p, hpF, hpi⟩ := List.mem_map.mp hiF
    obtain ⟨n, lb⟩ := p
    obtain ⟨hpe, hbeq⟩ := List.mem_filter.mp hpF
    have hge : labels[n]? = some lb := List.mk_mem_enum_iff_getElem?.mp hpe
    have hlow : lowerStr lb = answer := by simpa using hbeq
    cases hpi
    rw [hval]
    refine ⟨⟨fun h => absurd h (by omega), fun hall => ?_⟩,
      fun _ => ⟨n, lb, rfl, hge, hlow⟩⟩
    exact absurd hlow (hall lb (List.getElem?_mem hge))

/-- C5: `set_pred_n_true` records the sentinel `-1` if and only if the
generation is unparseable: more than one `boa_token` occurs, or no
`eos_token` follows the first `boa_token`, or the text between the first
`boa_token` and the next `eos_token` matches no label description
case-insensitively; otherwise it records the index of a matched label. -/
theorem c5_sentinel_iff_unparseable (boa eos : List Char) (labels : List (List Char))
    (g : List Char) (p : ℤ) (w : Bool) (i0 : ℕ) (rest : List ℕ)
    (hidx : get_substr_indices g boa = i0 :: rest)
    (h : set_pred_n_true boa eos labels g = some (p, w)) :
    (rest ≠ [] → p = -1)
    ∧ (rest = [] → get_substr_indices (g.drop (i0 + boa.length)) eos = [] → p = -1)
    ∧ (∀ j js, rest = [] →
        get_substr_indices (g.drop (i0 + boa.length)) eos = j :: js →
        ((p = -1 ↔ ∀ lb ∈ labels,
            lowerStr lb ≠ lowerStr ((g.drop (i0 + boa.length)).take j))
          ∧ (p ≠ -1 → ∃ (n : ℕ) (lb : List Char), p = (n : ℤ)
              ∧ labels[n]? = some lb
              ∧ lowerStr lb = lowerStr ((g.drop (i0 + boa.length)).take j)))) := by
  simp only [set_pred_n_true, hidx] at h
  cases rest with
  | cons r rs =>
    rw [if_pos (by simp only [List.length_cons]; omega)] at h
    cases Option.some.inj h
    exact ⟨fun _ => rfl, fun hc => absurd hc (by simp), fun j js hc => absurd hc (by simp)⟩
  | nil =>
    rw [if_neg (by simp)] at h
    cases heot : get_substr_indices (g.drop (i0 + boa.length)) eos with
    | nil =>
      rw [heot] at h
      cases Option.some.inj h
      exact ⟨fun hne => absurd rfl hne, fun _ _ => rfl, fun j js _ hj => absurd hj (by simp)⟩
    | cons j js =>
      rw [heot] at h
      cases Option.some.inj h
      refine ⟨fun hne => absurd rfl hne, fun _ hnil => absurd hnil (by simp),
        fun j' js' _ hj => ?_⟩
      injection hj with hj1 hj2
      cases hj1
      exact lb2id_spec labels (lowerStr ((g.drop (i0 + boa.length)).take j))

theorem c5_witness :
    ((([] : List ℕ) ≠ [] → (0 : ℤ) = -1)
    ∧ (([] : List ℕ) = [] →
        get_substr_indices ((['@', 'a', '#'].drop (0 + (['@'] : List Char).length))) ['#'] = []
        → (0 : ℤ) = -1)
    ∧ (∀ j js, ([] : List ℕ) = [] →
        get_substr_indices ((['@', 'a', '#'].drop (0 + (['@'] : List Char).length))) ['#']
          = j :: js →
        (((0 : ℤ) = -1 ↔ ∀ lb ∈ [['a'], ['b']],
            lowerStr lb
              ≠ lowerStr (((['@', 'a', '#'].drop (0 + (['@'] : List Char).length))).take j))
          ∧ ((0 : ℤ) ≠ -1 → ∃ (n : ℕ) (lb : List Char), (0 : ℤ) = (n : ℤ)
              ∧ ([['a'], ['b']] : List (List Char))[n]? = some lb
              ∧ lowerStr lb
                = lowerStr (((['@', 'a', '#'].drop (0 + (['@'] : List Char).length))).take j))))) :=
  c5_sentinel_iff_unparseable ['@'] ['#'] [['a'], ['b']] ['@', 'a', '#'] 0 false 0 []
    (by decide) (by decide)

/-- Value of `call_single T0 false 16 2 [1,2] [3,4,5,6,7,8,9,10,11] [5]`: the text is
cropped from 9 to 7 ids with a warning. -/
def oTrW : TokOut :=
  ⟨[90, 1, 2, 50, 91, 3, 4, 5, 6, 7, 8, 9, 50, 92, 5, 50],
   [1, 1, 1, 1, 1, 1, 1, 1, 1, 1, 1, 1, 1, 1, 1, 1],
   [70, 70, 70, 70, 71, 71, 71, 71, 71, 71, 71, 71, 71, 72, 72, 72],
   [0, 1, 2, 3, 4, 5, 6, 7, 8, 9, 10, 11, 12, 13, 16, 17],
   true⟩

/-- Value of `call_single T0 true 16 2 [1,2] [3,4,5,6,7,8,9,10] []`: the text is
cropped from 8 to 6 ids with a warning. -/
def oPrW : TokOut :=
  ⟨[90, 1, 2, 50, 91, 3, 4, 5, 6, 7, 8, 50, 92],
   [1, 1, 1, 1, 1, 1, 1, 1, 1, 1, 1, 1, 1],
   [70, 70, 70, 70, 71, 71, 71, 71, 71, 71, 71, 71, 72],
   [0, 1, 2, 3, 4, 5, 6, 7, 8, 9, 10, 11, 12],
   true⟩

/-- C6: the tokenizer warns exactly when it crops the text portion (in
training mode when `ln_q + ln_t + ln_a` exceeds `max_len_single_sentence`,
in prediction mode when the context exceeds
`model_max_length - 1 - max_label_id_length`), and whenever it warns the
kept text is a strict shortening of the input text; `set_pred_n_true` warns
exactly when the generation is malformed (more than one `boa_token`, or no
`eos_token` after the first `boa_token`).  Samples that fit, and generations
that parse, produce no warning. -/
theorem c6_warnings_iff (T : Tok) (mlid ml : ℕ) (q t a : List ℕ) (oTr oPr : TokOut)
    (boa eos : List Char) (labels : List (List Char)) (g : List Char)
    (p : ℤ) (w : Bool) :
    (call_single T false ml mlid q t a = some oTr →
      ((oTr.warned = true ↔ maxLenSingleSentence T.model_max_length
          < (q.length : ℤ) + t.length + a.length)
        ∧ (oTr.warned = true → ∃ k, k < t.length
            ∧ cropText T.model_max_length false mlid q t a = some (t.take k, true))))
    ∧ (call_single T true ml mlid q t a = some oPr →
      ((oPr.warned = true ↔ (T.model_max_length : ℤ) - 1 - mlid
          < ((1 : ℤ) + q.length + 1) + (1 + (t.length : ℤ) + 1) + 1)
        ∧ (oPr.warned = true → ∃ k, k < t.length
            ∧ cropText T.model_max_length true mlid q t a = some (t.take k, true))))
    ∧ (∀ i0 rest, get_substr_indices g boa = i0 :: rest →
        set_pred_n_true boa eos labels g = some (p, w) →
        (w = true ↔ (rest ≠ []
          ∨ get_substr_indices (g.drop (i0 + boa.length)) eos = []))) := by
  refine ⟨?_, ?_, ?_⟩
  · intro h
    obtain ⟨t', w', hc, rfl⟩ := call_single_inv h
    rw [buildOut_warned]
    rcases cropText_train_spec hc with ⟨rfl, rfl, hle⟩ | ⟨rfl, k, htk, hk, hpos, hlt⟩
    · exact ⟨⟨fun hf => (nomatch hf), fun hcond => absurd hcond (by omega)⟩,
        fun hf => (nomatch hf)⟩
    · refine ⟨⟨fun _ => hlt, fun _ => rfl⟩, fun _ => ⟨k, by omega, ?_⟩⟩
      rw [← htk]
      exact hc
  · intro h
    obtain ⟨t', w', hc, rfl⟩ := call_single_inv h
    rw [buildOut_warned]
    rcases cropText_pred_spec hc with ⟨rfl, rfl, hle⟩ | ⟨rfl, k, htk, hk, hpos, hlt⟩
    · exact ⟨⟨fun hf => (nomatch hf), fun hcond => absurd hcond (by omega)⟩,
        fun hf => (nomatch hf)⟩
    · refine ⟨⟨fun _ => hlt, fun _ => rfl⟩, fun _ => ⟨k, by omega, ?_⟩⟩
      rw [← htk]
      exact hc
  · intro i0 rest hidx hsp
    simp only [set_pred_n_true, hidx] at hsp
    cases rest with
    | cons r rs =>
      rw [if_pos (by simp only [List.length_cons]; omega)] at hsp
      cases Option.some.inj hsp
      exact ⟨fun _ => Or.inl (by simp), fun _ => rfl⟩
    | nil =>
      rw [if_neg (by simp)] at hsp
      cases heot : get_substr_indices (g.drop (i0 + boa.length)) eos with
      | nil =>
        rw [heot] at hsp
        cases Option.some.inj hsp
        exact ⟨fun _ => Or.inr rfl, fun _ => rfl⟩
      | cons j js =>
        rw [heot] at hsp
        cases Option.some.inj hsp
        refine ⟨fun hf => (nomatch hf), fun hor => ?_⟩
        rcases hor with hor | hor
        · exact absurd rfl hor
        · cases hor

theorem c6_witness :
    ((oTrW.warned = true ↔ maxLenSingleSentence T0.model_max_length
        < (([1, 2] : List ℕ).length : ℤ) + ([3, 4, 5, 6, 7, 8, 9, 10, 11] : List ℕ).length
          + ([5] : List ℕ).length)
      ∧ (oTrW.warned = true → ∃ k, k < ([3, 4, 5, 6, 7, 8, 9, 10, 11] : List ℕ).length
          ∧ cropText T0.model_max_length false 2 [1, 2] [3, 4, 5, 6, 7, 8, 9, 10, 11] [5]
            = some ([3, 4, 5, 6, 7, 8, 9, 10, 11].take k, true)))
    ∧ ((oPrW.warned = true ↔ (T0.model_max_length : ℤ) - 1 - 2
        < ((1 : ℤ) + ([1, 2] : List ℕ).length + 1)
          + (1 + (([3, 4, 5, 6, 7, 8, 9, 10] : List ℕ).length : ℤ) + 1) + 1)
      ∧ (oPrW.warned = true → ∃ k, k < ([3, 4, 5, 6, 7, 8, 9, 10] : List ℕ).length
          ∧ cropText T0.model_max_length true 2 [1, 2] [3, 4, 5, 6, 7, 8, 9, 10] []
            = some ([3, 4, 5, 6, 7, 8, 9, 10].take k, true)))
    ∧ ((true = true) ↔ (([2] : List ℕ) ≠ []
        ∨ get_substr_indices ((['@', 'a', '@'].drop (0 + (['@'] : List Char).length))) ['#']
          = [])) := by
  have h1 := (c6_warnings_iff T0 2 16 [1, 2] [3, 4, 5, 6, 7, 8, 9, 10, 11] [5] oTrW oPrW
    ['@'] ['#'] [['a']] ['@', 'a', '@'] (-1) true).1 (by decide)
  have h2 := (c6_warnings_iff T0 2 16 [1, 2] [3, 4, 5, 6, 7, 8, 9, 10] [] oTrW oPrW
    ['@'] ['#'] [['a']] ['@', 'a', '@'] (-1) true).2.1 (by decide)
  have h3 := (c6_warnings_iff T0 2 16 [1, 2] [3, 4] [5] oTrW oPrW
    ['@'] ['#'] [['a']] ['@', 'a', '@'] (-1) true).2.2 0 [2] (by decide) (by decide)
  exact ⟨h1, h2, h3⟩

example :  -- prediction-mode cropping: q=2, t=8, mlid=2, mml=16: room=13, ln_cont=15>13, ln_t'=13-7=6
    (call_single ⟨16, 90, 91, 92, 50, 51, 70, 71, 72⟩ true 16 2 [1, 2] [3, 4, 5, 6, 7, 8, 9, 10] []).map
      (fun o => (o.input_ids, o.position_ids, o.warned))
    = some ([90, 1, 2, 50, 91, 3, 4, 5, 6, 7, 8, 50, 92],
        [0, 1, 2, 3, 4, 5, 6, 7, 8, 9, 10, 11, 12], true) := by
  decide

/-! ## Embedding of the batching scheme of `evaluate_trained` (`gpt2.py`
lines 644-680)

`len_ids` is the list of `len(input_ids)` per dataset index;
`np.unique` sorts the distinct lengths, `np.where` collects the (ascending)
indices having each length, and `np.split` cuts each index group into
batches of `batch_size`. -/

/-- Embedding of `np.unique(len_ids)`: the distinct values in ascending order. -/
def uniq_lens (len_ids : List ℕ) : List ℕ :=
  (len_ids.dedup).insertionSort (· ≤ ·)

/-- Embedding of `np.where(len_ids == ln)[0]`: the indices whose length equals `ln`, in
increasing order. -/
def idxsOfLen (len_ids : List ℕ) (ln : ℕ) : List ℕ :=
  (List.range len_ids.length).filter fun i => len_ids.getD i 0 == ln

/-- Embedding of `np.split(idxs, range(batch_size, idxs.size, batch_size))`: cut a list
into consecutive chunks of `bs` elements (the last one possibly shorter).
Implemented with a structural fuel argument (`chunksAux`) so that it
evaluates by reduction; `chunks` supplies fuel `l.length`, which is always
sufficient. -/
def chunksAux (bs : ℕ) : ℕ → List ℕ → List (List ℕ)
  | _, [] => []
  | 0, xs => [xs]
  | fuel + 1, x :: xs => (x :: xs.take (bs - 1)) :: chunksAux bs fuel (xs.drop (bs - 1))

def chunks (bs : ℕ) (l : List ℕ) : List (List ℕ) :=
  chunksAux bs l.length l

/-- One group's batches: split when larger than `batch_size`, else keep as a
single batch (`gpt2.py` line 667). -/
def splitBatch (batch_size : ℕ) (idxs : List ℕ) : List (List ℕ) :=
  if batch_size < idxs.length then chunks batch_size idxs else [idxs]

/-- Embedding of `idxs_batches` (`gpt2.py` lines 664-670): the per-length index groups,
each cut into batches of at most `batch_size`, concatenated. -/
def idxs_batches (batch_size : ℕ) (len_ids : List ℕ) : List (List ℕ) :=
  (((uniq_lens len_ids).map (idxsOfLen len_ids)).map (splitBatch batch_size)).flatten

example : idxs_batches 2 [7, 5, 7, 7, 5] = [[1, 4], [0, 2], [3]] := by decide

theorem chunksAux_flatten (bs : ℕ) :
    ∀ (fuel : ℕ) (l : List ℕ), l.length ≤ fuel → (chunksAux bs fuel l).flatten = l
  | fuel, [], _ => by cases fuel <;> simp [chunksAux]
  | 0, x :: xs, h => by simp at h
  | fuel + 1, x :: xs, h => by
    rw [chunksAux]
    simp only [List.flatten_cons]
    rw [chunksAux_flatten bs fuel (xs.drop (bs - 1))
      (by simp only [List.length_drop]; simp only [List.length_cons] at h; omega)]
    simp

theorem chunksAux_length_le (bs : ℕ) (hbs : 0 < bs) :
    ∀ (fuel : ℕ) (l : List ℕ), l.length ≤ fuel →
      ∀ b ∈ chunksAux bs fuel l, b.length ≤ bs
  | fuel, [], _ => by cases fuel <;> simp [chunksAux]
  | 0, x :: xs, h => by simp at h
  | fuel + 1, x :: xs, h => by
    intro b hb
    rw [chunksAux] at hb
    rcases List.mem_cons.mp hb with hb | hb
    · subst hb
      simp only [List.length_cons, List.length_take]
      omega
    · exact chunksAux_length_le bs hbs fuel (xs.drop (bs - 1))
        (by simp only [List.length_drop]; simp only [List.length_cons] at h; omega) b hb

theorem chunks_flatten (bs : ℕ) (l : List ℕ) : (chunks bs l).flatten = l :=
  chunksAux_flatten bs l.length l le_rfl

theorem chunks_length_le (bs : ℕ) (hbs : 0 < bs) (l : List ℕ) :
    ∀ b ∈ chunks bs l, b.length ≤ bs :=
  chunksAux_length_le bs hbs l.length l le_rfl

theorem splitBatch_flatten (bs : ℕ) (idxs : List ℕ) :
    (splitBatch bs idxs).flatten = idxs := by
  unfold splitBatch
  split_ifs with h
  · exact chunks_flatten bs idxs
  · simp

theorem splitBatch_length_le (bs : ℕ) (hbs : 0 < bs) (idxs : List ℕ) :
    ∀ b ∈ splitBatch bs idxs, b.length ≤ bs := by
  unfold splitBatch
  split_ifs with h
  · exact chunks_length_le bs hbs idxs
  · intro b hb
    rw [List.mem_singleton] at hb
    subst hb
    omega

theorem mem_idxsOfLen {len_ids : List ℕ} {ln i : ℕ} :
    i ∈ idxsOfLen len_ids ln ↔ i < len_ids.length ∧ len_ids.getD i 0 = ln := by
  simp [idxsOfLen, List.mem_filter, List.mem_range]

theorem idxsOfLen_nodup (len_ids : List ℕ) (ln : ℕ) : (idxsOfLen len_ids ln).Nodup :=
  List.Nodup.filter _ (List.nodup_range _)

theorem count_idxsOfLen (len_ids : List ℕ) (ln i : ℕ) :
    (idxsOfLen len_ids ln).count i
      = if i < len_ids.length ∧ len_ids.getD i 0 = ln then 1 else 0 := by
  split_ifs with h
  · exact List.count_eq_one_of_mem (idxsOfLen_nodup len_ids ln) (mem_idxsOfLen.mpr h)
  · exact List.count_eq_zero.mpr fun hm => h (mem_idxsOfLen.mp hm)

theorem uniq_lens_nodup (len_ids : List ℕ) : (uniq_lens len_ids).Nodup :=
  (List.Perm.nodup_iff (List.perm_insertionSort _ _)).mpr (List.nodup_dedup len_ids)

theorem mem_uniq_lens {len_ids : List ℕ} {ln : ℕ} :
    ln ∈ uniq_lens len_ids ↔ ln ∈ len_ids := by
  rw [uniq_lens, (List.perm_insertionSort _ _).mem_iff]
  exact List.mem_dedup

theorem getD_mem {len_ids : List ℕ} {i : ℕ} (h : i < len_ids.length) :
    len_ids.getD i 0 ∈ len_ids := by
  rw [List.getD_eq_getElem?_getD, List.getElem?_eq_getElem h]
  exact List.getElem?_mem (List.getElem?_eq_getElem h)

theorem flatten_splitBatch_flatten (bs : ℕ) (gs : List (List ℕ)) :
    ((gs.map (splitBatch bs)).flatten).flatten = gs.flatten := by
  induction gs with
  | nil => simp
  | cons g gs ih =>
    simp only [List.map_cons, List.flatten_cons, List.flatten_append, ih,
      splitBatch_flatten]

theorem count_groups (len_ids : List ℕ) (i : ℕ) :
    ∀ gs : List ℕ, gs.Nodup →
      ((gs.map (idxsOfLen len_ids)).flatten).count i
        = if i < len_ids.length ∧ len_ids.getD i 0 ∈ gs then 1 else 0 := by
  intro gs
  induction gs with
  | nil => simp
  | cons g gs ih =>
    intro hnd
    obtain ⟨hgn, hnd'⟩ := List.nodup_cons.mp hnd
    simp only [List.map_cons, List.flatten_cons, List.count_append]
    rw [ih hnd', count_idxsOfLen]
    by_cases h1 : i < len_ids.length
    · by_cases h2 : len_ids.getD i 0 = g
      · rw [if_pos ⟨h1, h2⟩, if_neg (by rw [h2]; exact fun hc => hgn hc.2),
          if_pos ⟨h1, by rw [h2]; exact List.mem_cons_self g gs⟩]
      · rw [if_neg (fun hc => h2 hc.2)]
        by_cases h3 : len_ids.getD i 0 ∈ gs
        · rw [if_pos ⟨h1, h3⟩, if_pos ⟨h1, List.mem_cons_of_mem g h3⟩]
        · rw [if_neg (fun hc => h3 hc.2), if_neg (fun hc => ?_)]
          rcases List.mem_cons.mp hc.2 with hc' | hc'
          · exact h2 hc'
          · exact h3 hc'
    · rw [if_neg (fun hc => h1 hc.1), if_neg (fun hc => h1 hc.1),
        if_neg (fun hc => h1 hc.1)]

/-- C4: with a positive `batch_size`, the batching scheme of
`evaluate_trained` partitions the dataset's indices: samples in the same
batch have input ids of equal token length, every batch has at most
`batch_size` samples, and every index `i < len(dataset)` occurs in exactly
one batch (and no other index occurs). -/
theorem c4_batching_partition (batch_size : ℕ) (hbs : 0 < batch_size)
    (len_ids : List ℕ) :
    (∀ b ∈ idxs_batches batch_size len_ids, ∀ i ∈ b, ∀ j ∈ b,
        len_ids.getD i 0 = len_ids.getD j 0)
    ∧ (∀ b ∈ idxs_batches batch_size len_ids, b.length ≤ batch_size)
    ∧ (∀ i : ℕ, ((idxs_batches batch_size len_ids).flatten).count i
        = if i < len_ids.length then 1 else 0) := by
  have hmem : ∀ b ∈ idxs_batches batch_size len_ids,
      ∃ ln, b ∈ splitBatch batch_size (idxsOfLen len_ids ln) := by
    intro b hb
    unfold idxs_batches at hb
    obtain ⟨bl, hbl, hbbl⟩ := List.mem_flatten.mp hb
    obtain ⟨g, hg, rfl⟩ := List.mem_map.mp hbl
    obtain ⟨ln, hln, rfl⟩ := List.mem_map.mp hg
    exact ⟨ln, hbbl⟩
  refine ⟨?_, ?_, ?_⟩
  · intro b hb i hi j hj
    obtain ⟨ln, hbs'⟩ := hmem b hb
    have hi' : i ∈ idxsOfLen len_ids ln := by
      rw [← splitBatch_flatten batch_size (idxsOfLen len_ids ln)]
      exact List.mem_flatten.mpr ⟨b, hbs', hi⟩
    have hj' : j ∈ idxsOfLen len_ids ln := by
      rw [← splitBatch_flatten batch_size (idxsOfLen len_ids ln)]
      exact List.mem_flatten.mpr ⟨b, hbs', hj⟩
    rw [(mem_idxsOfLen.mp hi').2, (mem_idxsOfLen.mp hj').2]
  · intro b hb
    obtain ⟨ln, hbs'⟩ := hmem b hb
    exact splitBatch_length_le batch_size hbs (idxsOfLen len_ids ln) b hbs'
  · intro i
    unfold idxs_batches
    rw [flatten_splitBatch_flatten, count_groups len_ids i (uniq_lens len_ids)
      (uniq_lens_nodup len_ids)]
    by_cases h1 : i < len_ids.length
    · rw [if_pos ⟨h1, mem_uniq_lens.mpr (getD_mem h1)⟩, if_pos h1]
    · rw [if_neg (fun hc => h1 hc.1), if_neg h1]

theorem c4_witness :
    (∀ b ∈ idxs_batches 2 [7, 5, 7, 7, 5], ∀ i ∈ b, ∀ j ∈ b,
        ([7, 5, 7, 7, 5] : List ℕ).getD i 0 = ([7, 5, 7, 7, 5] : List ℕ).getD j 0)
    ∧ (∀ b ∈ idxs_batches 2 [7, 5, 7, 7, 5], b.length ≤ 2)
    ∧ (∀ i : ℕ, ((idxs_batches 2 [7, 5, 7, 7, 5]).flatten).count i
        = if i < ([7, 5, 7, 7, 5] : List ℕ).length then 1 else 0) :=
  c4_batching_partition 2 (by decide) [7, 5, 7, 7, 5]

/-! ## Embedding of `ZsGPT2Model` / `ZsGPT2LMHeadModel.from_pretrained`
(`gpt2.py` lines 251-328)

A positional embedding weight matrix is a list of rows (one row per
position). -/

/-- Embedding of `ZsGPT2Model.__init__`: `self.wpe = nn.Embedding(
config.max_position_embeddings * 2, embed_dim)` - the number of rows of the
doubled positional embedding matrix. -/
def zsWpeNumRows (max_position_embeddings : ℕ) : ℕ :=
  max_position_embeddings * 2

/-- The weight-loading step of `ZsGPT2LMHeadModel.from_pretrained` with
`is_zs_gpt2 = False` (`gpt2.py` lines 320-328): when the doubled matrix has
`1024 * 2` rows, the pretrained `wpe` weights are copied into rows
`0..1023` and rows `1024..2047` (a torch slice assignment, which requires
the pretrained matrix to have 1024 rows - `none` models the shape
mismatch); otherwise the matrix is left as initialised with a warning. -/
def loadDoubledWpe (initW pretrainedW : List (List ℚ)) : Option (List (List ℚ)) :=
  if initW.length = 1024 * 2 then
    if pretrainedW.length = 1024 then some (pretrainedW ++ pretrainedW) else none
  else some initW

/-- C3: `ZsGPT2Model` allocates exactly `2 * max_position_embeddings` rows,
and `from_pretrained` with `is_zs_gpt2 = False` copies the 1024 pretrained
rows into both the first half (rows 0..1023) and the second half (rows
1024..2047) whenever the doubled matrix has 2048 rows. -/
theorem c3_doubled_wpe_loading (max_position_embeddings : ℕ)
    (initW pretrainedW : List (List ℚ)) (hInit : initW.length = 1024 * 2)
    (hPre : pretrainedW.length = 1024) :
    zsWpeNumRows max_position_embeddings = 2 * max_position_embeddings
    ∧ loadDoubledWpe initW pretrainedW = some (pretrainedW ++ pretrainedW)
    ∧ (pretrainedW ++ pretrainedW).take 1024 = pretrainedW
    ∧ (pretrainedW ++ pretrainedW).drop 1024 = pretrainedW
    ∧ (pretrainedW ++ pretrainedW).length = 1024 * 2 := by
  refine ⟨Nat.mul_comm _ 2, ?_, ?_, ?_, ?_⟩
  · unfold loadDoubledWpe
    rw [if_pos hInit, if_pos hPre]
  · rw [List.take_left' hPre]
  · rw [List.drop_left' hPre]
  · rw [List.length_append, hPre]

theorem c3_witness :
    zsWpeNumRows 1024 = 2 * 1024
    ∧ loadDoubledWpe (List.replicate 2048 [0]) (List.replicate 1024 [0])
      = some ((List.replicate 1024 [0] : List (List ℚ))
        ++ List.replicate 1024 [0])
    ∧ ((List.replicate 1024 [0] : List (List ℚ))
        ++ List.replicate 1024 [0]).take 1024 = List.replicate 1024 [0]
    ∧ ((List.replicate 1024 [0] : List (List ℚ))
        ++ List.replicate 1024 [0]).drop 1024 = List.replicate 1024 [0]
    ∧ ((List.replicate 1024 [0] : List (List ℚ))
        ++ List.replicate 1024 [0]).length = 1024 * 2 :=
  c3_doubled_wpe_loading 1024 (List.replicate 2048 [0]) (List.replicate 1024 [0])
    (by norm_num [List.length_replicate]) (by norm_num [List.length_replicate])

/-! ## The evaluation loop of `evaluate_trained` (`gpt2.py` lines 614-778)

The loop over `config('UTCD.datasets')` processes a dataset when its
`out_of_domain` flag equals `not in_domain`; the loop body then contains
`if dnm_ != 'multi_eurlex': continue  # TODO: debugging` and ends with
`exit(1)` after writing the first CSV. -/

/-- The CSV files written by one run of `evaluate_trained`, as in the code
(including the `TODO: debugging` skip of every dataset other than
`multi_eurlex` and the `exit(1)` after the first processed dataset).
`dsets` is the list of `(name, out_of_domain)` pairs of
`config('UTCD.datasets')`. -/
def evalLoopCsvFiles (dsets : List (String × Bool)) (in_domain : Bool) : List String :=
  ((((dsets.filter fun d => d.2 == !in_domain).map Prod.fst).filter
    fun nm => nm == "multi_eurlex").take 1).map fun nm => nm ++ ".csv"

/-- The label argument of the `classification_report` call (`gpt2.py` line
770): the sentinel `-1` followed by all the dataset's label indices. -/
def reportLabels (n_labels : ℕ) : List ℤ :=
  -1 :: (List.range n_labels).map (fun i => (i : ℤ))

/-- C7 (code_bug evaluation): on a domain containing the datasets
`ag_news` and `multi_eurlex`, the evaluation loop writes only
`multi_eurlex.csv` - not one CSV per evaluated dataset as the spec states -
because of the `TODO: debugging` skip and the `exit(1)`.  The report labels
for the one written CSV do cover the sentinel `-1` plus all label
indices. -/
theorem c7_csv_only_multi_eurlex :
    evalLoopCsvFiles [("ag_news", false), ("multi_eurlex", false)] true
        = ["multi_eurlex.csv"]
    ∧ evalLoopCsvFiles [("ag_news", false), ("multi_eurlex", false)] true
        ≠ ["ag_news.csv", "multi_eurlex.csv"]
    ∧ reportLabels 2 = [-1, 0, 1] := by
  refine ⟨by decide, by decide, by decide⟩

/-! ## Embedding of `TrainStrategy2PairMap` (`util/util.py` lines 104-145) -/

/-- The training strategies accepted by `TrainStrategy2PairMap.__init__`
(the `ca(training_strategy=...)` check-arg values, matching the branches of
`__call__`). -/
inductive TrainStrategy where
  | vanilla
  | explicit
  | implicit
  | implicitOnTextEncodeAspect
  | implicitOnTextEncodeSep
  deriving Repr, DecidableEq

/-- The query function returned by `TrainStrategy2PairMap.__call__`:
one `[text, label]` pair per label.  `sep_token` and `a2t` stand for the
configured `aspect-sep-token` and `aspect2aspect-token` mapping. -/
def txt_n_lbs2query (sep_token : String) (a2t : String → String)
    (st : TrainStrategy) (aspect txt : String) (lbs : List String) :
    List (List String) :=
  match st with
  | .vanilla | .explicit => lbs.map fun lb => [txt, lb]
  | .implicit => lbs.map fun lb => [txt, lb ++ " " ++ aspect]
  | .implicitOnTextEncodeAspect => lbs.map fun lb => [a2t aspect ++ " " ++ txt, lb]
  | .implicitOnTextEncodeSep =>
    lbs.map fun lb => [aspect ++ " " ++ sep_token ++ " " ++ txt, lb]

/-- Embedding of `TrainStrategy2PairMap.map_label`. -/
def map_label (st : TrainStrategy) (label aspect : String) : String :=
  match st with
  | .implicit => label ++ " " ++ aspect
  | _ => label

/-- Embedding of `TrainStrategy2PairMap.map_text`. -/
def map_text (sep_token : String) (a2t : String → String)
    (st : TrainStrategy) (text aspect : String) : String :=
  match st with
  | .implicitOnTextEncodeAspect => a2t aspect ++ " " ++ text
  | .implicitOnTextEncodeSep => aspect ++ " " ++ sep_token ++ " " ++ text
  | _ => text

/-- C9: for every accepted training strategy the query function returns
exactly one `[text, label]` pair per label, in order (the pairs being the
`map_text`/`map_label` images); under `vanilla` and `explicit` both
components pass through unchanged, as do `map_label` and `map_text`. -/
theorem c9_pair_map (sep_token : String) (a2t : String → String)
    (st : TrainStrategy) (aspect txt label : String) (lbs : List String) :
    (txt_n_lbs2query sep_token a2t st aspect txt lbs).length = lbs.length
    ∧ txt_n_lbs2query sep_token a2t st aspect txt lbs
      = lbs.map (fun lb => [map_text sep_token a2t st txt aspect,
          map_label st lb aspect])
    ∧ txt_n_lbs2query sep_token a2t .vanilla aspect txt lbs
      = lbs.map (fun lb => [txt, lb])
    ∧ txt_n_lbs2query sep_token a2t .explicit aspect txt lbs
      = lbs.map (fun lb => [txt, lb])
    ∧ map_label .vanilla label aspect = label
    ∧ map_label .explicit label aspect = label
    ∧ map_text sep_token a2t .vanilla txt aspect = txt
    ∧ map_text sep_token a2t .explicit txt aspect = txt := by
  refine ⟨?_, ?_, rfl, rfl, rfl, rfl, rfl, rfl⟩
  · cases st <;> simp [txt_n_lbs2query]
  · cases st <;> simp [txt_n_lbs2query, map_text, map_label]

/-! ## Embedding of `eval_res2df` (`util/util.py` lines 147-155)

The classification report is modelled as the dict returned by sklearn with
`output_dict=True`: an optional `accuracy` entry and the `micro avg` row as
an ordered association list (precision, recall, f1-score, support).  Metric
values are `ℚ`. -/

structure ClsReport where
  accuracy : Option ℚ
  micro_avg : List (String × ℚ)

/-- Embedding of `math.isclose(a, b, abs_tol=1e-8)` with the default `rel_tol=1e-9`:
`abs(a-b) <= max(rel_tol * max(abs(a), abs(b)), abs_tol)`. -/
def isclose (a b : ℚ) : Bool :=
  decide (|a - b| ≤ max (1 / 1000000000 * max |a| |b|) (1 / 100000000))

/-- Python's banker's rounding to an integer (ties to even). -/
def roundHalfToEven (q : ℚ) : ℤ :=
  let f := Int.floor q
  if q - f < 1 / 2 then f
  else if 1 / 2 < q - f then f + 1
  else if f % 2 = 0 then f else f + 1

/-- Python `round(q, 3)`. -/
def pyRound3 (q : ℚ) : ℚ :=
  (roundHalfToEven (q * 1000) : ℚ) / 1000

/-- The accuracy returned by `eval_res2df` (its second component): the
report's `accuracy` entry when present, otherwise the first `micro avg`
metric after the non-`support` values pass the `isclose` assertion; `none`
models the failing `assert` (or the `vals[0]` IndexError on an empty list).
The result is rounded to 3 decimals exactly when `pretty` is true. -/
def eval_res2df_acc (report : ClsReport) (pretty : Bool) : Option ℚ :=
  match report.accuracy with
  | some acc => some (if pretty then pyRound3 acc else acc)
  | none =>
    match (report.micro_avg.filter fun kv => kv.1 != "support").map Prod.snd with
    | [] => none
    | v0 :: vs =>
      if (v0 :: vs).all (fun v => isclose v v0) then
        some (if pretty then pyRound3 v0 else v0)
      else none

/-- C10: the returned accuracy is the report's `accuracy` value when that
key exists; otherwise the micro-avg metrics excluding `support` must all be
`isclose` to the first (for metric values in `[0, 1]` this is exactly
"within `1e-8`") and the first is used; the value is rounded to 3 decimal
places exactly when `pretty` is true and returned unrounded otherwise. -/
theorem c10_eval_res2df_accuracy :
    (∀ (report : ClsReport) (pretty : Bool) (a : ℚ), report.accuracy = some a →
      eval_res2df_acc report pretty = some (if pretty then pyRound3 a else a))
    ∧ (∀ (report : ClsReport) (pretty : Bool) (v0 : ℚ) (vs : List ℚ),
        report.accuracy = none →
        (report.micro_avg.filter fun kv => kv.1 != "support").map Prod.snd = v0 :: vs →
        (v0 :: vs).all (fun v => isclose v v0) = true →
        eval_res2df_acc report pretty = some (if pretty then pyRound3 v0 else v0))
    ∧ (∀ a b : ℚ, 0 ≤ a → a ≤ 1 → 0 ≤ b → b ≤ 1 →
        (isclose a b = true ↔ |a - b| ≤ 1 / 100000000)) := by
  refine ⟨?_, ?_, ?_⟩
  · intro report pretty a ha
    unfold eval_res2df_acc
    rw [ha]
  · intro report pretty v0 vs hacc hvals hall
    unfold eval_res2df_acc
    rw [hacc, hvals]
    simp [hall]
  · intro a b ha0 ha1 hb0 hb1
    have h1 : |a| ≤ 1 := abs_le.mpr ⟨by linarith, ha1⟩
    have h2 : |b| ≤ 1 := abs_le.mpr ⟨by linarith, hb1⟩
    have hrel : (1 / 1000000000 : ℚ) * max |a| |b| ≤ 1 / 100000000 := by
      have hmax : max |a| |b| ≤ 1 := max_le h1 h2
      nlinarith [hmax]
    unfold isclose
    rw [max_eq_right hrel]
    exact decide_eq_true_iff

theorem c10_witness :
    eval_res2df_acc ⟨some (3 / 4), []⟩ true
        = some (if true then pyRound3 (3 / 4) else 3 / 4)
    ∧ eval_res2df_acc
        ⟨none, [("precision", 1 / 2), ("recall", 1 / 2), ("f1-score", 1 / 2),
          ("support", 10)]⟩ false
        = some (if false then pyRound3 (1 / 2) else 1 / 2)
    ∧ (isclose (1 / 2) (1 / 2) = true ↔ |(1 / 2 : ℚ) - 1 / 2| ≤ 1 / 100000000) :=
  ⟨c10_eval_res2df_accuracy.1 ⟨some (3 / 4), []⟩ true (3 / 4) rfl,
   c10_eval_res2df_accuracy.2.1
     ⟨none, [("precision", 1 / 2), ("recall", 1 / 2), ("f1-score", 1 / 2),
       ("support", 10)]⟩ false (1 / 2) [1 / 2, 1 / 2] rfl rfl
     (by simp only [List.all_cons, List.all_nil, Bool.and_eq_true, and_true, isclose,
           decide_eq_true_iff]
         norm_num),
   c10_eval_res2df_accuracy.2.2 (1 / 2) (1 / 2) (by norm_num) (by norm_num)
     (by norm_num) (by norm_num)⟩
